import Mathlib

/-!
Verification of the sm3_agent alert-investigation pipeline.

This file gives a shallow embedding, in Lean 4, of the core of the
`Brownster/sm3_agent` repository:

* `MCPClient.connect` / `disconnect` / `invoke_tool`
  (src/sm3_agent/backend/tools/mcp_client.py), with the tool-result cache
  modelled from the specification (the cache module itself is not part of
  the sources);
* the Grafana webhook handler, AI-investigation orchestrator, confidence
  scoring, severity→priority mapping, ticket creation and ticket listing
  (src/sm3_agent/backend/api/alerts.py).

Python strings are embedded as Lean `String`; the Python string operations
used by the code (`lower`, `upper`, `strip`, `startswith`, `in`,
`split('\n')`, lexicographic comparison) are re-implemented below over the
underlying character lists so that they reduce inside the kernel.  Python
floats are embedded as exact rationals (`ℚ`), with `round(x, 2)` embedded
as round-half-to-even in exact arithmetic.  Async effects (remote calls,
the reasoning engine, the filesystem) are embedded as explicit oracle
parameters and explicit state passing.
-/

/-! ### Python string primitives -/

/-- ASCII lower-casing of one character, as Python `str.lower` acts on the
ASCII range (all strings compared by the code are ASCII). -/
def lowerChar (c : Char) : Char :=
  if 'A' ≤ c ∧ c ≤ 'Z' then Char.ofNat (c.toNat + 32) else c

/-- ASCII upper-casing of one character, mirroring Python `str.upper`. -/
def upperChar (c : Char) : Char :=
  if 'a' ≤ c ∧ c ≤ 'z' then Char.ofNat (c.toNat - 32) else c

/-- Python `s.lower()` (ASCII model). -/
def pyLower (s : String) : String := ⟨s.data.map lowerChar⟩

/-- Python `s.upper()` (ASCII model). -/
def pyUpper (s : String) : String := ⟨s.data.map upperChar⟩

/-- Python whitespace test used by `str.strip`. -/
def isPySpace (c : Char) : Bool :=
  c = ' ' ∨ c = '\x09' ∨ c = '\x0a' ∨ c = '\x0d' ∨ c = '\x0b' ∨ c = '\x0c'

/-- Python `s.strip()`. -/
def pyStrip (s : String) : String :=
  ⟨((s.data.dropWhile isPySpace).reverse.dropWhile isPySpace).reverse⟩

/-- Python `s.startswith(pre)`. -/
def pyStartsWith (s pre : String) : Bool :=
  pre.data.isPrefixOf s.data

/-- Python `needle in hay` substring test. -/
def strContains (hay needle : String) : Bool :=
  hay.data.tails.any (fun t => needle.data.isPrefixOf t)

/-- Split a character list at every occurrence of `c` (Python `str.split(c)`
semantics: `n` separators yield `n+1` pieces). -/
def splitOnChar (c : Char) : List Char → List (List Char)
  | [] => [[]]
  | x :: xs =>
    let r := splitOnChar c xs
    if x = c then [] :: r
    else
      match r with
      | [] => [[x]]
      | h :: t => (x :: h) :: t

/-- Python `text.split('\n')`. -/
def pyLines (s : String) : List String :=
  (splitOnChar '\x0a' s.data).map (fun l => ⟨l⟩)

/-- Python `' '.join(parts)`. -/
def joinSpace : List String → String
  | [] => ""
  | [x] => x
  | x :: xs => x ++ " " ++ joinSpace xs

/-- Lexicographic (code-point) comparison of character lists: Python's
`<=` on strings. -/
def lexLe : List Char → List Char → Bool
  | [], _ => true
  | _ :: _, [] => false
  | a :: as, b :: bs =>
    if a.toNat < b.toNat then true
    else if b.toNat < a.toNat then false
    else lexLe as bs

theorem lexLe_refl (a : List Char) : lexLe a a = true := by
  induction a with
  | nil => rfl
  | cons x xs ih => simp [lexLe, ih]

theorem lexLe_total (a b : List Char) : lexLe a b = true ∨ lexLe b a = true := by
  induction a generalizing b with
  | nil => exact Or.inl rfl
  | cons x xs ih =>
    cases b with
    | nil => exact Or.inr rfl
    | cons y ys =>
      rcases Nat.lt_trichotomy x.toNat y.toNat with h | h | h
      · exact Or.inl (by simp [lexLe, h])
      · have hxy : ¬ x.toNat < y.toNat := by omega
        have hyx : ¬ y.toNat < x.toNat := by omega
        rcases ih ys with h' | h'
        · exact Or.inl (by simp [lexLe, hxy, hyx, h'])
        · exact Or.inr (by simp [lexLe, hxy, hyx, h'])
      · exact Or.inr (by simp [lexLe, h])

theorem lexLe_antisymm {a b : List Char} (h₁ : lexLe a b = true)
    (h₂ : lexLe b a = true) : a = b := by
  induction a generalizing b with
  | nil =>
    cases b with
    | nil => rfl
    | cons y ys => simp [lexLe] at h₂
  | cons x xs ih =>
    cases b with
    | nil => simp [lexLe] at h₁
    | cons y ys =>
      by_cases hxy : x.toNat < y.toNat
      · have : ¬ y.toNat < x.toNat := by omega
        simp [lexLe, hxy, this] at h₂
      · by_cases hyx : y.toNat < x.toNat
        · simp [lexLe, hxy, hyx] at h₁
        · have hnat : x.toNat = y.toNat := by omega
          have hchar : x = y := by
            apply Char.eq_of_val_eq
            apply UInt32.eq_of_toBitVec_eq
            apply BitVec.eq_of_toNat_eq
            exact hnat
          subst hchar
          simp [lexLe, hxy] at h₁ h₂
          rw [ih h₁ h₂]

theorem lexLe_trans {a b c : List Char} (h₁ : lexLe a b = true)
    (h₂ : lexLe b c = true) : lexLe a c = true := by
  induction a generalizing b c with
  | nil => rfl
  | cons x xs ih =>
    cases b with
    | nil => simp [lexLe] at h₁
    | cons y ys =>
      cases c with
      | nil => simp [lexLe] at h₂
      | cons z zs =>
        by_cases hxy : x.toNat < y.toNat
        · by_cases hyz : y.toNat < z.toNat
          · have : x.toNat < z.toNat := by omega
            simp [lexLe, this]
          · by_cases hzy : z.toNat < y.toNat
            · simp [lexLe, hyz, hzy] at h₂
            · have : x.toNat < z.toNat := by omega
              simp [lexLe, this]
        · by_cases hyx : y.toNat < x.toNat
          · simp [lexLe, hxy, hyx] at h₁
          · by_cases hyz : y.toNat < z.toNat
            · have : x.toNat < z.toNat := by omega
              simp [lexLe, this]
            · by_cases hzy : z.toNat < y.toNat
              · simp [lexLe, hyz, hzy] at h₂
              · have hxz : ¬ x.toNat < z.toNat := by omega
                have hzx : ¬ z.toNat < x.toNat := by omega
                simp [lexLe, hxy, hyx] at h₁
                simp [lexLe, hyz, hzy] at h₂
                simp [lexLe, hxz, hzx]
                exact ih h₁ h₂

instance {ε α : Type} [DecidableEq ε] [DecidableEq α] : DecidableEq (Except ε α) := fun x y =>
  match x, y with
  | .ok a, .ok b =>
    if h : a = b then isTrue (by rw [h]) else isFalse (fun hc => h (Except.ok.inj hc))
  | .ok _, .error _ => isFalse (fun hc => Except.noConfusion hc)
  | .error _, .ok _ => isFalse (fun hc => Except.noConfusion hc)
  | .error e, .error f =>
    if h : e = f then isTrue (by rw [h]) else isFalse (fun hc => h (Except.error.inj hc))

/-! ### Exact-rational model of Python `round(x, 2)` -/

/-- Python `round(x)` (round half to even) in exact rational arithmetic. -/
def pyRoundHalfEven (x : ℚ) : ℤ :=
  let f : ℤ := ⌊x⌋
  if x - f < 1/2 then f
  else if (1 : ℚ)/2 < x - f then f + 1
  else if f % 2 = 0 then f else f + 1

/-- Python `round(q, 2)` in exact rational arithmetic. -/
def pyRound2 (q : ℚ) : ℚ :=
  (pyRoundHalfEven (q * 100) : ℚ) / 100

theorem pyRoundHalfEven_nonneg {x : ℚ} (h : 0 ≤ x) : 0 ≤ pyRoundHalfEven x := by
  have hf : (0 : ℤ) ≤ ⌊x⌋ := Int.le_floor.mpr (by exact_mod_cast h)
  unfold pyRoundHalfEven
  dsimp only
  split
  · exact hf
  · split
    · omega
    · split <;> omega

theorem pyRoundHalfEven_le {x : ℚ} (h : x ≤ 100) : pyRoundHalfEven x ≤ 100 := by
  have hf : (⌊x⌋ : ℚ) ≤ 100 := le_trans (Int.floor_le x) h
  have hf' : ⌊x⌋ ≤ 100 := by exact_mod_cast hf
  unfold pyRoundHalfEven
  dsimp only
  split
  · exact hf'
  · rename_i hlt
    push_neg at hlt
    have hx2 : (⌊x⌋ : ℚ) ≤ x - 1/2 := by linarith
    have : (⌊x⌋ : ℚ) < 100 := by linarith
    have h99 : ⌊x⌋ < 100 := by exact_mod_cast this
    split
    · omega
    · split <;> omega

/-! ### Connection Manager (`MCPClient` in
src/sm3_agent/backend/tools/mcp_client.py) -/

/-- The connection-related fields of an `MCPClient`:
`sessionOpen` embeds `self.session is not None`, `stackOpen` embeds
`self._exit_stack is not None`, `attempts` embeds
`self._connection_attempts`. -/
structure ConnState where
  sessionOpen : Bool
  stackOpen : Bool
  attempts : Nat
deriving DecidableEq, Repr

/-- `self._max_retries` in `MCPClient.__init__`. -/
def maxRetries : Nat := 3

/-- Outcome of one underlying connection attempt (transport + session +
initialize), indexed by the value of the attempt counter when it starts. -/
inductive AttemptResult where
  | success
  | failure (msg : String)
deriving DecidableEq, Repr

/-- Result of a `connect()` call: the value raised or returned, the final
field state, and how many underlying connection attempts were made. -/
structure ConnectOutcome where
  result : Except String Unit
  state : ConnState
  attemptsMade : Nat
deriving DecidableEq, Repr

/-- The `while self._connection_attempts < self._max_retries` loop inside
`MCPClient.connect`.  `fuel` bounds the recursion; `maxRetries` units of
fuel always suffice because every failing iteration increments the
attempt counter. -/
def connectLoop (oracle : Nat → AttemptResult) : Nat → ConnState → ConnectOutcome
  | 0, s => ⟨.ok (), s, 0⟩
  | fuel + 1, s =>
    if s.attempts < maxRetries then
      match oracle s.attempts with
      | .success =>
        -- exit stack entered, transport and session entered, session
        -- initialized, `self._connection_attempts = 0`, `return`
        ⟨.ok (), ⟨true, true, 0⟩, 1⟩
      | .failure msg =>
        -- `except` branch: increment the counter, unwind the exit stack,
        -- clear `_exit_stack` and `session`
        let a := s.attempts + 1
        let s' : ConnState := ⟨false, false, a⟩
        if maxRetries ≤ a then
          ⟨.error ("Failed to connect to MCP server after 3 attempts: " ++ msg), s', 1⟩
        else
          let o := connectLoop oracle fuel s'
          ⟨o.result, o.state, o.attemptsMade + 1⟩
    else
      -- loop guard false: fall through the end of `connect` and return
      ⟨.ok (), s, 0⟩

/-- `MCPClient.connect`: returns immediately when a session is already
held, otherwise runs the retry loop. -/
def connect (oracle : Nat → AttemptResult) (s : ConnState) : ConnectOutcome :=
  if s.sessionOpen then ⟨.ok (), s, 0⟩
  else connectLoop oracle maxRetries s

/-- Outcome of `self._exit_stack.__aexit__(None, None, None)` during
`disconnect`. -/
inductive TeardownResult where
  | ok
  | raises (msg : String)
deriving DecidableEq, Repr

/-- `MCPClient.disconnect`: inside a `try`, if an exit stack is held it is
unwound and then `_exit_stack`, `session` and `_connection_attempts` are
cleared; any exception is caught and only logged.  Note that when the
unwind raises, the three clearing assignments are skipped, so the fields
keep their previous values. -/
def disconnect (teardown : TeardownResult) (s : ConnState) : ConnState :=
  if s.stackOpen then
    match teardown with
    | .ok => ⟨false, false, 0⟩
    | .raises _ => s
  else s

/-! ### Tool Result Cache and `MCPClient.invoke_tool` -/

/-- Order on argument pairs by key, used to canonicalize argument
mappings. -/
def argLe (a b : String × String) : Prop := lexLe a.1.data b.1.data = true

instance : DecidableRel argLe := fun a b => by unfold argLe; infer_instance

instance : IsTotal (String × String) argLe :=
  ⟨fun a b => lexLe_total a.1.data b.1.data⟩

instance : IsTrans (String × String) argLe :=
  ⟨fun _ _ _ h₁ h₂ => lexLe_trans h₁ h₂⟩

/-- Modelled from the spec: the Tool Result Cache module
(`backend/tools/cache.py`, reached from `mcp_client.py` through
`get_cache()`) is not among the sources.  The spec requires a canonical
cache key `(toolName, canonicalized arguments)` whose canonicalization is
"deterministic and order-independent"; we canonicalize an argument
mapping by sorting its entries by key. -/
def canonArgs (args : List (String × String)) : List (String × String) :=
  List.insertionSort argLe args

/-- Strict key order: `argLe` together with distinct keys. -/
def argLt (a b : String × String) : Prop := argLe a b ∧ a.1 ≠ b.1

theorem String.eq_of_data_eq {a b : String} (h : a.data = b.data) : a = b := by
  cases a
  cases b
  exact congrArg String.mk h

instance : IsAntisymm (String × String) argLt :=
  ⟨fun _ _ h₁ h₂ =>
    absurd (String.eq_of_data_eq (lexLe_antisymm h₁.1 h₂.1)) h₁.2⟩

theorem canonArgs_perm (l : List (String × String)) : List.Perm (canonArgs l) l :=
  List.perm_insertionSort _ l

theorem canonArgs_sorted (l : List (String × String)) :
    List.Sorted argLe (canonArgs l) :=
  List.sorted_insertionSort _ l

/-- Spec invariant of the cache key: two argument mappings that are equal
up to reordering (and have no duplicate keys) canonicalize identically. -/
theorem canonArgs_eq_of_perm {l₁ l₂ : List (String × String)}
    (hp : List.Perm l₁ l₂) (hnd : (l₁.map Prod.fst).Nodup) :
    canonArgs l₁ = canonArgs l₂ := by
  have hp' : List.Perm (canonArgs l₁) (canonArgs l₂) :=
    (canonArgs_perm l₁).trans (hp.trans (canonArgs_perm l₂).symm)
  have hnd1 : ((canonArgs l₁).map Prod.fst).Nodup :=
    (((canonArgs_perm l₁).map Prod.fst).nodup_iff).mpr hnd
  have hnd2 : ((canonArgs l₂).map Prod.fst).Nodup :=
    ((hp'.map Prod.fst).nodup_iff).mp hnd1
  have hkey1 : List.Pairwise (fun a b : String × String => a.1 ≠ b.1) (canonArgs l₁) :=
    List.pairwise_map.mp hnd1
  have hkey2 : List.Pairwise (fun a b : String × String => a.1 ≠ b.1) (canonArgs l₂) :=
    List.pairwise_map.mp hnd2
  have hs1 : List.Pairwise argLt (canonArgs l₁) := (canonArgs_sorted l₁).and hkey1
  have hs2 : List.Pairwise argLt (canonArgs l₂) := (canonArgs_sorted l₂).and hkey2
  exact List.eq_of_perm_of_sorted hp' hs1 hs2

/-- Modelled from the spec: `get(name, args)` of the Tool Result Cache —
returns the value stored under the canonical key, or `none`. -/
def cacheGet {Val : Type} (cache : List ((String × List (String × String)) × Val))
    (name : String) (args : List (String × String)) : Option Val :=
  (cache.find? (fun e => decide (e.1 = (name, canonArgs args)))).map (fun e => e.2)

/-- Modelled from the spec: `set(name, args, value)` of the Tool Result
Cache — stores `value` under the canonical key (a newer entry shadows an
older one with the same key). -/
def cacheSet {Val : Type} (cache : List ((String × List (String × String)) × Val))
    (name : String) (args : List (String × String)) (v : Val) :
    List ((String × List (String × String)) × Val) :=
  ((name, canonArgs args), v) :: cache

/-- Outcome of `self.session.call_tool(name, arguments)`: a response with
a `content` payload, a response without content, or a raised exception. -/
inductive RemoteOutcome (Val : Type) where
  | content (v : Val)
  | noContent
  | failure (msg : String)
deriving DecidableEq

/-- Value returned by `invoke_tool`: either a tool result, or the
`{"error": "No response from tool <name>"}` dictionary produced when the
response carries no content. -/
inductive InvokeValue (Val : Type) where
  | result (v : Val)
  | errorDict (msg : String)
deriving DecidableEq

/-- Combined client state: connection fields plus the process-wide tool
result cache. -/
structure MCPState (Val : Type) where
  conn : ConnState
  cache : List ((String × List (String × String)) × Val)
deriving DecidableEq

/-- Result of an `invoke_tool` call: the raised or returned value, the
final state, the number of remote `call_tool` invocations performed, and
whether the connection layer (`ensure_connected`) was entered at all. -/
structure InvokeOutcome (Val : Type) where
  result : Except String (InvokeValue Val)
  state : MCPState Val
  remoteCalls : Nat
  touchedConnection : Bool
deriving DecidableEq

/-- `MCPClient.ensure_connected`: reconnect only when no session is
held. -/
def ensure_connected (oracle : Nat → AttemptResult) (s : ConnState) : ConnectOutcome :=
  if s.sessionOpen then ⟨.ok (), s, 0⟩ else connect oracle s

/-- `MCPClient.invoke_tool`: consult the cache first; on a hit return the
cached value without touching the connection.  On a miss,
`ensure_connected`, perform the remote call; a response with content is
stored in the cache and returned; a response without content yields the
error dictionary (not cached); a raised exception — including one raised
while connecting, or the `AttributeError` hit when `connect` returned
without establishing a session — is wrapped as
`Failed to invoke tool <name>: ...` (nothing cached). -/
def invoke_tool {Val : Type} (oracle : Nat → AttemptResult)
    (remote : String → List (String × String) → RemoteOutcome Val)
    (st : MCPState Val) (name : String) (args : List (String × String)) :
    InvokeOutcome Val :=
  match cacheGet st.cache name args with
  | some v => ⟨.ok (.result v), st, 0, false⟩
  | none =>
    let co := ensure_connected oracle st.conn
    match co.result with
    | .error msg =>
      ⟨.error ("Failed to invoke tool '" ++ name ++ "': " ++ msg), ⟨co.state, st.cache⟩, 0, true⟩
    | .ok _ =>
      if co.state.sessionOpen then
        match remote name args with
        | .content v =>
          ⟨.ok (.result v), ⟨co.state, cacheSet st.cache name args v⟩, 1, true⟩
        | .noContent =>
          ⟨.ok (.errorDict ("No response from tool " ++ name)), ⟨co.state, st.cache⟩, 1, true⟩
        | .failure msg =>
          ⟨.error ("Failed to invoke tool '" ++ name ++ "': " ++ msg), ⟨co.state, st.cache⟩, 1, true⟩
      else
        ⟨.error ("Failed to invoke tool '" ++ name ++ "': 'NoneType' object has no attribute 'call_tool'"),
         ⟨co.state, st.cache⟩, 0, true⟩

/-! ### Investigation data model (src/sm3_agent/backend/api/alerts.py)

Python datetimes (`startsAt`, `investigated_at`, `created_at`, the
timestamp used for ticket numbers) are embedded as opaque strings passed
in as parameters. -/

/-- `GrafanaAlert` (pydantic model).  `labels` and `annotations` are
`Dict[str, Any]` in the source; the handlers only ever read string values
out of them, so they are embedded as string-valued association lists. -/
structure GrafanaAlert where
  status : String
  labels : List (String × String)
  annotations : List (String × String)
  startsAt : String
  endsAt : Option String := none
  generatorURL : Option String := none
  fingerprint : String
  values : Option (List (String × ℚ)) := none
deriving DecidableEq

/-- `GrafanaWebhookPayload` (pydantic model). -/
structure GrafanaWebhookPayload where
  receiver : String
  status : String
  alerts : List GrafanaAlert
  groupLabels : List (String × String)
  commonLabels : List (String × String)
  commonAnnotations : List (String × String)
  externalURL : String
  version : String := "4"
  groupKey : String
  truncatedAlerts : Nat := 0
deriving DecidableEq

/-- `AlertInvestigation` (pydantic model); `confidence` is an exact
rational standing for the Python float. -/
structure AlertInvestigation where
  alert_name : String
  severity : String
  summary : String
  root_cause_hypothesis : String
  impact_assessment : String
  recommended_actions : List String
  related_evidence : List String
  confidence : ℚ
  investigated_at : String
deriving DecidableEq

/-- `ServiceNowTicket` (pydantic model). -/
structure ServiceNowTicket where
  ticket_number : String
  priority : String
  short_description : String
  description : String
  assignment_group : String := "platform-ops"
  category : String := "Infrastructure"
  state : String := "New"
  created_at : String
  ai_generated : Bool := true
  investigation_summary : String
deriving DecidableEq

/-- One entry of `SEVERITY_MAPPING`. -/
structure SeverityConfig where
  priority : String
  snow_priority : String
  action : String
deriving DecidableEq

/-- The `SEVERITY_MAPPING["info"]` entry. -/
def infoConfig : SeverityConfig := ⟨"P4", "4", "email_only"⟩

/-- The module-level `SEVERITY_MAPPING` dictionary. -/
def SEVERITY_MAPPING : List (String × SeverityConfig) :=
  [("critical", ⟨"P1", "1", "page"⟩),
   ("high", ⟨"P2", "2", "ticket"⟩),
   ("warning", ⟨"P3", "3", "ticket"⟩),
   ("info", infoConfig)]

/-- `SEVERITY_MAPPING.get(severity, SEVERITY_MAPPING["info"])` in
`create_servicenow_ticket`. -/
def severityConfigFor (severity : String) : SeverityConfig :=
  (SEVERITY_MAPPING.lookup severity).getD infoConfig

/-! ### Free-text parsing helpers (`extract_section`, `extract_actions`,
`extract_evidence`, `calculate_confidence`) -/

/-- Loop body of `extract_section`: walks the lines carrying the
`in_section` flag and the collected lines.  A line that names the section
together with a marker turns the flag on (and is skipped); once in the
section, a heading or blank line stops collection if anything was
collected; other lines are collected stripped. -/
def extractSectionLoop (secLower : String) : List String → Bool → List String → List String
  | [], _, acc => acc
  | line :: rest, inSec, acc =>
    if strContains (pyLower line) secLower &&
        (strContains line ":**" || strContains line "###" || strContains line "**") then
      extractSectionLoop secLower rest true acc
    else if inSec && (pyStartsWith line "**" || pyStartsWith line "###" || pyStrip line = "") then
      if acc ≠ [] then acc
      else extractSectionLoop secLower rest inSec acc
    else if inSec then
      extractSectionLoop secLower rest inSec (acc ++ [pyStrip line])
    else
      extractSectionLoop secLower rest inSec acc

/-- `extract_section(text, section_name)`. -/
def extract_section (text section_name : String) : String :=
  let sl := extractSectionLoop (pyLower section_name) (pyLines text) false []
  if sl ≠ [] then joinSpace sl else "See full investigation for " ++ section_name

/-- Python `stripped.lstrip('-*0123456789. ')`. -/
def lstripBullets (s : String) : String :=
  ⟨s.data.dropWhile (fun c =>
    (['-', '*', '0', '1', '2', '3', '4', '5', '6', '7', '8', '9', '.', ' '].contains c))⟩

/-- Python `stripped[0].isdigit()` (guarded by non-emptiness in the
source). -/
def headIsDigit (s : String) : Bool :=
  match s.data with
  | [] => false
  | c :: _ => c.isDigit

/-- Loop body of `extract_actions`. -/
def extractActionsLoop : List String → Bool → List String → List String
  | [], _, acc => acc
  | line :: rest, inAct, acc =>
    if strContains (pyLower line) "recommended" && strContains (pyLower line) "action" then
      extractActionsLoop rest true acc
    else if inAct then
      let stripped := pyStrip line
      if stripped ≠ "" &&
          (pyStartsWith stripped "-" || pyStartsWith stripped "*" || headIsDigit stripped) then
        let act := lstripBullets stripped
        if act ≠ "" then extractActionsLoop rest inAct (acc ++ [act])
        else extractActionsLoop rest inAct acc
      else if stripped ≠ "" && !(pyStartsWith stripped "**") then
        extractActionsLoop rest inAct (acc ++ [stripped])
      else if pyStartsWith stripped "**" || pyStartsWith stripped "###" then acc
      else extractActionsLoop rest inAct acc
    else
      extractActionsLoop rest inAct acc

/-- `extract_actions(text)`. -/
def extract_actions (text : String) : List String :=
  let acts := extractActionsLoop (pyLines text) false []
  if acts ≠ [] then acts.take 5
  else ["Review alert in Grafana", "Check service logs", "Escalate if needed"]

/-- `extract_evidence(text)`. -/
def extract_evidence (text : String) : List String :=
  let ev := (pyLines text).filterMap (fun line =>
    if (["metric", "log", "dashboard", "query", "value", "error"].any
          (fun kw => strContains (pyLower line) kw)) &&
        strContains line ":" && !(pyStartsWith line "#") then
      some (pyStrip line)
    else none)
  if ev ≠ [] then ev.take 10 else ["See investigation details above"]

/-- `calculate_confidence(result)`, abstracted over
`tool_calls = len(result.tool_calls)` and
`message_length = len(result.message)`. -/
def calculate_confidence (tool_calls message_length : ℕ) : ℚ :=
  pyRound2 (min 1 ((tool_calls : ℚ) * (15/100) + min (4/10) ((message_length : ℚ) / 2000)))

/-! ### Investigation Orchestrator (`investigate_alert_with_ai`) -/

/-- The reasoning-engine result consumed by the orchestrator:
`result.message` and the number of tool calls `len(result.tool_calls)`
(zero when the attribute is absent). -/
structure EngineResult where
  message : String
  tool_calls : Nat
deriving DecidableEq

/-- `investigate_alert_with_ai`, abstracted over the outcome of the
reasoning-engine interaction (`AgentManager` construction,
`initialize()`, and `run_chat(...)` together): `.ok r` when the engine
returned `r`, `.error e` when any of those steps raised.  `now` stands
for `datetime.utcnow()`.  Prompt construction has no effect on the
returned investigation beyond the engine oracle and is not modelled. -/
def investigate_alert_with_ai (engine : Except String EngineResult)
    (alert_name severity description summary now : String) : AlertInvestigation :=
  match engine with
  | .ok result =>
    { alert_name := alert_name
      severity := severity
      summary := summary
      root_cause_hypothesis := extract_section result.message "Root Cause"
      impact_assessment := extract_section result.message "Impact"
      recommended_actions := extract_actions result.message
      related_evidence := extract_evidence result.message
      confidence := calculate_confidence result.tool_calls result.message.length
      investigated_at := now }
  | .error _ =>
    { alert_name := alert_name
      severity := severity
      summary := summary
      root_cause_hypothesis := "AI investigation failed - manual investigation required"
      impact_assessment := "Alert triggered: " ++ description
      recommended_actions := ["Check Grafana dashboard", "Review recent deployments", "Check service logs"]
      related_evidence := ["AI investigation unavailable"]
      confidence := 0
      investigated_at := now }

/-! ### Ticket Store (`create_servicenow_ticket`, `list_tickets`) -/

/-- Python `'\n'.join(parts)`. -/
def joinNewline : List String → String
  | [] => ""
  | [x] => x
  | x :: xs => x ++ "\x0a" ++ joinNewline xs

/-- `format_ticket_description(investigation)`.  `investigated_at` stands
in for its own `strftime` rendering; `Confidence: {confidence:.0%}`
renders the rounded percentage. -/
def format_ticket_description (inv : AlertInvestigation) : String :=
  let actions := joinNewline (inv.recommended_actions.enum.map
    (fun p => "  " ++ toString (p.1 + 1) ++ ". " ++ p.2))
  let evidence := joinNewline (inv.related_evidence.map (fun item => "  - " ++ item))
  pyStrip
    ("\x0a=== ALERT DETAILS ===\x0aAlert: " ++ inv.alert_name ++
     "\x0aSeverity: " ++ pyUpper inv.severity ++
     "\x0aSummary: " ++ inv.summary ++
     "\x0aInvestigated: " ++ inv.investigated_at ++
     "\x0aConfidence: " ++ toString (pyRoundHalfEven (inv.confidence * 100)) ++ "%" ++
     "\x0a\x0a=== ROOT CAUSE HYPOTHESIS ===\x0a" ++ inv.root_cause_hypothesis ++
     "\x0a\x0a=== IMPACT ASSESSMENT ===\x0a" ++ inv.impact_assessment ++
     "\x0a\x0a=== RECOMMENDED ACTIONS ===\x0a" ++ actions ++
     "\x0a\x0a=== SUPPORTING EVIDENCE ===\x0a" ++ evidence ++
     "\x0a\x0a---\x0aThis ticket was generated automatically by the Grafana AI Agent.\x0a")

/-- `create_servicenow_ticket(alert, investigation, severity)`: looks the
severity up in `SEVERITY_MAPPING` (defaulting to the `"info"` entry) and
builds the ticket record.  `ts` stands for
`datetime.utcnow().strftime('%Y%m%d%H%M%S')` and `now` for the
`created_at` timestamp; the two file writes under `/tmp/servicenow_tickets`
(a JSON record and a text rendering, both addressed by the ticket number)
are modelled at the store level by the list of file names passed to
`list_tickets`.  The `alert` parameter is unused by the source body. -/
def create_servicenow_ticket (_alert : GrafanaAlert) (investigation : AlertInvestigation)
    (severity : String) (ts now : String) : ServiceNowTicket :=
  let severity_config := severityConfigFor severity
  { ticket_number := "INC" ++ ts
    priority := severity_config.priority
    short_description := "[" ++ pyUpper severity ++ "] " ++ investigation.alert_name
    description := format_ticket_description investigation
    created_at := now
    investigation_summary := investigation.root_cause_hypothesis }

/-- `process_alert(alert, common_labels, common_annotations)` up to the
ticket it creates: extracts name/severity/description/summary from the
alert (note the `"unknown"` severity default, unlike the webhook filter's
`"info"`), runs the investigation, and creates the ticket.  The
`common_labels`/`common_annotations` arguments and metric values feed only
the prompt (observed through the `engine` oracle) and logging. -/
def process_alert (engine : Except String EngineResult) (alert : GrafanaAlert)
    (now ts : String) : ServiceNowTicket :=
  let alert_name := (alert.labels.lookup "alertname").getD "Unknown Alert"
  let severity := pyLower ((alert.labels.lookup "severity").getD "unknown")
  let description := (alert.annotations.lookup "description").getD "No description"
  let summary := (alert.annotations.lookup "summary").getD alert_name
  let investigation :=
    investigate_alert_with_ai engine alert_name severity description summary now
  create_servicenow_ticket alert investigation severity ts now

/-- Ticket-number order used by `list_tickets` (descending string sort of
the JSON file names, which are the ticket numbers). -/
def tickGe (a b : String) : Prop := lexLe b.data a.data = true

instance : DecidableRel tickGe := fun a b => by unfold tickGe; infer_instance

instance : IsTotal String tickGe := ⟨fun a b => lexLe_total b.data a.data⟩

instance : IsTrans String tickGe := ⟨fun _ _ _ h₁ h₂ => lexLe_trans h₂ h₁⟩

instance : IsAntisymm String tickGe :=
  ⟨fun _ _ h₁ h₂ => String.eq_of_data_eq (lexLe_antisymm h₂ h₁)⟩

/-- Strict ticket-number order: the hypothesis under which "later created"
and "lexicographically larger file name" coincide (`INC` + fixed-width
UTC timestamp). -/
def tickLt (a b : String) : Prop := lexLe a.data b.data = true ∧ a ≠ b

/-- `list_tickets(limit=50)`: sorts the stored ticket file names
descending (`sorted(..., reverse=True)`) and truncates to `limit`;
each name stands for the JSON record it addresses. -/
def list_tickets (files : List String) (limit : Nat := 50) : List String :=
  (List.insertionSort tickGe files).take limit

/-! ### Webhook Ingress (`grafana_webhook`) -/

/-- One acknowledgement entry of the webhook response:
`{"fingerprint": ..., "severity": ..., "status": "queued_for_investigation"}`. -/
structure QueuedAlert where
  fingerprint : String
  severity : String
  status : String
deriving DecidableEq

/-- One scheduled background task:
`background_tasks.add_task(process_alert, alert=..., common_labels=...,
common_annotations=...)`. -/
structure BackgroundTask where
  alert : GrafanaAlert
  common_labels : List (String × String)
  common_annotations : List (String × String)
deriving DecidableEq

/-- The webhook response dictionary: either
`{"status": "ignored", "reason": ...}` or
`{"status": "received", "processed_count": ..., "alerts": [...]}`. -/
inductive WebhookResponse where
  | ignored (status reason : String)
  | received (status : String) (processed_count : Nat) (alerts : List QueuedAlert)
deriving DecidableEq

/-- The `alerts` list of a webhook response (empty for the ignored
shape). -/
def webhookAlerts : WebhookResponse → List QueuedAlert
  | .ignored _ _ => []
  | .received _ _ alerts => alerts

/-- `alert.labels.get("severity", "info").lower()` — the severity the
webhook filter examines. -/
def alertSeverity (a : GrafanaAlert) : String :=
  pyLower ((a.labels.lookup "severity").getD "info")

/-- `grafana_webhook(payload, background_tasks)`: returns the response
dictionary together with the background tasks scheduled before
returning (the response is sent without waiting for any of them to
run). -/
def grafana_webhook (payload : GrafanaWebhookPayload) :
    WebhookResponse × List BackgroundTask :=
  if payload.status ≠ "firing" then
    (.ignored "ignored" ("Alert status is " ++ payload.status), [])
  else
    let processed := payload.alerts.filterMap (fun a =>
      if alertSeverity a = "critical" ∨ alertSeverity a = "high" then
        some ⟨a.fingerprint, alertSeverity a, "queued_for_investigation"⟩
      else none)
    let tasks := payload.alerts.filterMap (fun a =>
      if alertSeverity a = "critical" ∨ alertSeverity a = "high" then
        some ⟨a, payload.commonLabels, payload.commonAnnotations⟩
      else none)
    (.received "received" processed.length processed, tasks)

/-! ### Claim theorems -/

/-- C1: evaluating `connect` on the claimed scenario.  From a fresh
disconnected client whose every underlying attempt fails, the call makes
exactly 3 attempts, raises the connection error wrapping the last
underlying failure, and leaves no session and no exit stack — but it
leaves the attempt counter at 3 instead of resetting it, so a subsequent
`connect()` call performs 0 fresh attempts and returns silently, neither
raising nor establishing a session. -/
theorem connect_exhaustion_no_counter_reset :
    (connect
        (fun i => AttemptResult.failure (match i with | 0 => "e0" | 1 => "e1" | _ => "e2"))
        ⟨false, false, 0⟩ =
      ⟨.error "Failed to connect to MCP server after 3 attempts: e2",
       ⟨false, false, 3⟩, 3⟩) ∧
    (connect
        (fun i => AttemptResult.failure (match i with | 0 => "e0" | 1 => "e1" | _ => "e2"))
        ⟨false, false, 3⟩ =
      ⟨.ok (), ⟨false, false, 3⟩, 0⟩) := by
  decide

/-- C9: evaluating `disconnect`.  When the exit-stack teardown raises,
the exception is swallowed but the session, the exit stack and the
attempt counter are all left in place rather than cleared; on a clean
teardown the state is cleared; and when no exit stack is held the
attempt counter is not reset either. -/
theorem disconnect_teardown_error_keeps_state :
    (disconnect (.raises "teardown failed") ⟨true, true, 2⟩ = ⟨true, true, 2⟩) ∧
    (disconnect .ok ⟨true, true, 2⟩ = ⟨false, false, 0⟩) ∧
    (disconnect .ok ⟨false, false, 3⟩ = ⟨false, false, 3⟩) := by
  decide

/-- C3 (counterexample): the fallback hypothesis produced when the
reasoning engine raises is not the claimed string
"AI investigation failed — manual investigation required" (the source
uses an ASCII hyphen, not an em dash). -/
theorem investigate_fallback_not_emdash :
    (investigate_alert_with_ai (.error "engine down") "HighCPU" "critical"
        "cpu is high" "cpu summary" "t0").root_cause_hypothesis ≠
      "AI investigation failed — manual investigation required" := by
  decide

/-- C3 (amended): whenever the reasoning-engine interaction raises,
`investigate_alert_with_ai` returns (and does not raise) the
deterministic fallback investigation: hypothesis
"AI investigation failed - manual investigation required" (a fixed
non-empty string), impact built from the raw description, the fixed
3-item action list, the fixed evidence placeholder, and confidence 0. -/
theorem investigate_fallback_fields (e alert_name severity description summary now : String) :
    investigate_alert_with_ai (.error e) alert_name severity description summary now =
      { alert_name := alert_name
        severity := severity
        summary := summary
        root_cause_hypothesis := "AI investigation failed - manual investigation required"
        impact_assessment := "Alert triggered: " ++ description
        recommended_actions :=
          ["Check Grafana dashboard", "Review recent deployments", "Check service logs"]
        related_evidence := ["AI investigation unavailable"]
        confidence := 0
        investigated_at := now } ∧
    ("AI investigation failed - manual investigation required" : String) ≠ "" :=
  ⟨rfl, by decide⟩

/-- Concrete non-firing payload used for C4. -/
def resolvedPayload : GrafanaWebhookPayload :=
  { receiver := "grafana"
    status := "resolved"
    alerts := []
    groupLabels := []
    commonLabels := []
    commonAnnotations := []
    externalURL := "http://grafana"
    groupKey := "gk" }

/-- C4 (counterexample): for a payload with status `"resolved"` the
handler returns the ignored response whose reason is
`"Alert status is resolved"`, which is not equal to the payload's status
value `"resolved"` as the claim states. -/
theorem webhook_resolved_reason_not_status :
    (grafana_webhook resolvedPayload =
      (.ignored "ignored" "Alert status is resolved", [])) ∧
    ("Alert status is resolved" : String) ≠ "resolved" := by
  decide

/-- C4 (amended): for every payload whose status is not `"firing"`, the
handler schedules no background task and returns
`{"status": "ignored", "reason": "Alert status is <payload.status>"}`. -/
theorem webhook_ignored_shape (p : GrafanaWebhookPayload) (h : p.status ≠ "firing") :
    grafana_webhook p = (.ignored "ignored" ("Alert status is " ++ p.status), []) := by
  simp [grafana_webhook, h]

/-- C4 witness: the amended theorem applied to the concrete resolved
payload. -/
theorem webhook_ignored_shape_witness :
    grafana_webhook resolvedPayload =
      (.ignored "ignored" "Alert status is resolved", []) := by
  rw [webhook_ignored_shape resolvedPayload (by decide)]
  decide

/-- The confidence formula as the specification states it:
`min(1.0, toolCallCount*0.15 + min(0.4, messageLength/2000))`, rounded
to 2 decimals. -/
def confidenceFormula (toolCallCount messageLength : ℕ) : ℚ :=
  pyRound2 (min 1 ((toolCallCount : ℚ) * (15/100) + min (4/10) ((messageLength : ℚ) / 2000)))

theorem pyRound2_mem_unit {q : ℚ} (h0 : 0 ≤ q) (h1 : q ≤ 1) :
    0 ≤ pyRound2 q ∧ pyRound2 q ≤ 1 := by
  have hb0 : (0 : ℤ) ≤ pyRoundHalfEven (q * 100) :=
    pyRoundHalfEven_nonneg (by positivity)
  have hb1 : pyRoundHalfEven (q * 100) ≤ 100 :=
    pyRoundHalfEven_le (by linarith)
  unfold pyRound2
  constructor
  · apply div_nonneg _ (by norm_num)
    exact_mod_cast hb0
  · rw [div_le_one (by norm_num)]
    exact_mod_cast hb1

/-- C6: `calculate_confidence` computes exactly the spec formula; it
yields 0.85 at `toolCallCount = 3`, `messageLength = 1000`; and for
every input the result lies in `[0, 1]`. -/
theorem calculate_confidence_props :
    (∀ tc ml : ℕ, calculate_confidence tc ml = confidenceFormula tc ml) ∧
    calculate_confidence 3 1000 = 85/100 ∧
    (∀ tc ml : ℕ, 0 ≤ calculate_confidence tc ml ∧ calculate_confidence tc ml ≤ 1) := by
  refine ⟨fun tc ml => rfl, ?_, ?_⟩
  · show pyRound2 (min 1 ((3 : ℚ) * (15/100) + min (4/10) ((1000 : ℚ) / 2000))) = 85/100
    norm_num [pyRound2, pyRoundHalfEven]
  · intro tc ml
    have h1 : (0 : ℚ) ≤ (tc : ℚ) * (15/100) := by positivity
    have h2 : (0 : ℚ) ≤ min ((4 : ℚ)/10) ((ml : ℚ)/2000) :=
      le_min (by norm_num) (by positivity)
    have hx0 : 0 ≤ min (1 : ℚ) ((tc : ℚ) * (15/100) + min (4/10) ((ml : ℚ)/2000)) :=
      le_min (by norm_num) (add_nonneg h1 h2)
    have hx1 : min (1 : ℚ) ((tc : ℚ) * (15/100) + min (4/10) ((ml : ℚ)/2000)) ≤ 1 :=
      min_le_left _ _
    exact pyRound2_mem_unit hx0 hx1

/-- C7: the severity→priority lookup used by ticket creation is total
and exact: `critical→P1`, `high→P2`, `warning→P3`, and every other
severity string (including `"info"`) maps to `P4`. -/
theorem severity_mapping_exact :
    (severityConfigFor "critical").priority = "P1" ∧
    (severityConfigFor "high").priority = "P2" ∧
    (severityConfigFor "warning").priority = "P3" ∧
    ∀ s : String, s ≠ "critical" → s ≠ "high" → s ≠ "warning" →
      (severityConfigFor s).priority = "P4" := by
  refine ⟨by decide, by decide, by decide, ?_⟩
  intro s h1 h2 h3
  by_cases h4 : s = "info"
  · subst h4; decide
  · have hb1 : (s == "critical") = false := beq_eq_false_iff_ne.mpr h1
    have hb2 : (s == "high") = false := beq_eq_false_iff_ne.mpr h2
    have hb3 : (s == "warning") = false := beq_eq_false_iff_ne.mpr h3
    have hb4 : (s == "info") = false := beq_eq_false_iff_ne.mpr h4
    simp [severityConfigFor, SEVERITY_MAPPING, List.lookup, hb1, hb2, hb3, hb4, infoConfig]

/-- C7 witness: an unmapped severity string falls through to `P4`. -/
theorem severity_mapping_exact_witness :
    (severityConfigFor "mystery").priority = "P4" :=
  severity_mapping_exact.2.2.2 "mystery" (by decide) (by decide) (by decide)

/-- C5: for a firing payload, an alert whose lowered severity label
(default `"info"`) is outside `{critical, high}` contributes no
acknowledgement entry and no background task, while an alert inside that
set gets a background task and the acknowledgement entry
`{fingerprint, severity, "queued_for_investigation"}`, both delivered in
the immediately-returned response. -/
theorem webhook_severity_filter (payload : GrafanaWebhookPayload) (alert : GrafanaAlert)
    (hfir : payload.status = "firing") (hmem : alert ∈ payload.alerts) :
    ((alertSeverity alert ≠ "critical" ∧ alertSeverity alert ≠ "high") →
      (⟨alert.fingerprint, alertSeverity alert, "queued_for_investigation"⟩ : QueuedAlert)
          ∉ webhookAlerts (grafana_webhook payload).1 ∧
      (⟨alert, payload.commonLabels, payload.commonAnnotations⟩ : BackgroundTask)
          ∉ (grafana_webhook payload).2) ∧
    ((alertSeverity alert = "critical" ∨ alertSeverity alert = "high") →
      (⟨alert, payload.commonLabels, payload.commonAnnotations⟩ : BackgroundTask)
          ∈ (grafana_webhook payload).2 ∧
      (⟨alert.fingerprint, alertSeverity alert, "queued_for_investigation"⟩ : QueuedAlert)
          ∈ webhookAlerts (grafana_webhook payload).1) := by
  have hgw : grafana_webhook payload =
      (.received "received"
        (payload.alerts.filterMap (fun a =>
          if alertSeverity a = "critical" ∨ alertSeverity a = "high" then
            some (⟨a.fingerprint, alertSeverity a, "queued_for_investigation"⟩ : QueuedAlert)
          else none)).length
        (payload.alerts.filterMap (fun a =>
          if alertSeverity a = "critical" ∨ alertSeverity a = "high" then
            some (⟨a.fingerprint, alertSeverity a, "queued_for_investigation"⟩ : QueuedAlert)
          else none)),
       payload.alerts.filterMap (fun a =>
          if alertSeverity a = "critical" ∨ alertSeverity a = "high" then
            some (⟨a, payload.commonLabels, payload.commonAnnotations⟩ : BackgroundTask)
          else none)) := by
    unfold grafana_webhook
    rw [if_neg (by simp [hfir])]
  constructor
  · rintro ⟨hc, hh⟩
    rw [hgw]
    constructor
    · simp only [webhookAlerts]
      intro hmem'
      rcases List.mem_filterMap.mp hmem' with ⟨a', _, hfa⟩
      by_cases hpass : alertSeverity a' = "critical" ∨ alertSeverity a' = "high"
      · rw [if_pos hpass] at hfa
        have hsev : alertSeverity a' = alertSeverity alert :=
          congrArg QueuedAlert.severity (Option.some.inj hfa)
        rw [hsev] at hpass
        rcases hpass with h | h
        · exact hc h
        · exact hh h
      · rw [if_neg hpass] at hfa
        exact Option.noConfusion hfa
    · intro hmem'
      rcases List.mem_filterMap.mp hmem' with ⟨a', _, hfa⟩
      by_cases hpass : alertSeverity a' = "critical" ∨ alertSeverity a' = "high"
      · rw [if_pos hpass] at hfa
        have ha : a' = alert :=
          congrArg BackgroundTask.alert (Option.some.inj hfa)
        rw [ha] at hpass
        rcases hpass with h | h
        · exact hc h
        · exact hh h
      · rw [if_neg hpass] at hfa
        exact Option.noConfusion hfa
  · intro hpass
    rw [hgw]
    refine ⟨?_, ?_⟩
    · exact List.mem_filterMap.mpr ⟨alert, hmem, by rw [if_pos hpass]⟩
    · simp only [webhookAlerts]
      exact List.mem_filterMap.mpr ⟨alert, hmem, by rw [if_pos hpass]⟩

/-- Concrete firing alert used by the C5 witness. -/
def critAlertW : GrafanaAlert :=
  { status := "firing"
    labels := [("severity", "CRITICAL")]
    annotations := []
    startsAt := "t"
    fingerprint := "fp1" }

/-- Concrete firing payload used by the C5 witness. -/
def firingPayloadW : GrafanaWebhookPayload :=
  { receiver := "grafana"
    status := "firing"
    alerts := [critAlertW]
    groupLabels := []
    commonLabels := [("cluster", "prod")]
    commonAnnotations := []
    externalURL := "http://grafana"
    groupKey := "gk" }

/-- C5 witness: the filter theorem applied to a concrete firing payload
holding one `CRITICAL` alert. -/
theorem webhook_severity_filter_witness :
    (⟨critAlertW, [("cluster", "prod")], []⟩ : BackgroundTask)
        ∈ (grafana_webhook firingPayloadW).2 ∧
    (⟨"fp1", "critical", "queued_for_investigation"⟩ : QueuedAlert)
        ∈ webhookAlerts (grafana_webhook firingPayloadW).1 := by
  have hsev : alertSeverity critAlertW = "critical" := by decide
  have h := (webhook_severity_filter firingPayloadW critAlertW rfl (by decide)).2
    (Or.inl hsev)
  rw [hsev] at h
  exact h

instance : DecidableRel tickLt := fun a b => by unfold tickLt; infer_instance

/-- C8: when the stored ticket file names are pairwise strictly
increasing in creation order (as the `INC` + fixed-width UTC timestamp
scheme yields), `list_tickets` returns the most recently created tickets
first, truncated to `limit`; and the limit defaults to 50. -/
theorem list_tickets_newest_first (files : List String) (limit : Nat)
    (h : List.Pairwise tickLt files) :
    list_tickets files limit = files.reverse.take limit ∧
    (∀ fs : List String, list_tickets fs = list_tickets fs 50) := by
  constructor
  · unfold list_tickets
    congr 1
    refine List.eq_of_perm_of_sorted (r := tickGe)
      ((List.perm_insertionSort _ files).trans files.reverse_perm.symm)
      (List.sorted_insertionSort _ files) ?_
    rw [List.Sorted, List.pairwise_reverse]
    exact h.imp (fun hab => hab.1)
  · intro fs
    rfl

/-- C8 witness: after three tickets, listing with limit 2 returns
exactly the two most recently created, newest first. -/
theorem list_tickets_newest_first_witness :
    list_tickets ["INC20240101000001", "INC20240101000002", "INC20240101000003"] 2 =
      ["INC20240101000003", "INC20240101000002"] := by
  rw [(list_tickets_newest_first
    ["INC20240101000001", "INC20240101000002", "INC20240101000003"] 2 (by decide)).1]
  decide

theorem create_ticket_priority (alert : GrafanaAlert) (investigation : AlertInvestigation)
    (severity ts now : String) :
    (create_servicenow_ticket alert investigation severity ts now).priority =
      (severityConfigFor severity).priority := rfl

theorem process_alert_priority (engine : Except String EngineResult) (alert : GrafanaAlert)
    (now ts : String) :
    (process_alert engine alert now ts).priority =
      (severityConfigFor (pyLower ((alert.labels.lookup "severity").getD "unknown"))).priority :=
  rfl

theorem pyLower_info : pyLower "info" = "info" := by decide

/-- If the webhook filter's severity (default `"info"`) names a value
other than `"info"`, the label must be present, so the background task's
re-extraction (default `"unknown"`) yields the same lowered value. -/
theorem severity_redefault_agree (alert : GrafanaAlert) (target : String)
    (hne : target ≠ "info") (htarget : alertSeverity alert = target) :
    pyLower ((alert.labels.lookup "severity").getD "unknown") = target := by
  unfold alertSeverity at htarget
  cases hl : alert.labels.lookup "severity" with
  | none =>
    rw [hl] at htarget
    simp only [Option.getD_none] at htarget
    rw [pyLower_info] at htarget
    exact absurd htarget.symm hne
  | some v =>
    rw [hl] at htarget
    simpa using htarget

/-- C10: any ticket the background pipeline creates for an alert that
passed the webhook severity filter has priority `P1` when the filter saw
`critical` and `P2` when it saw `high`, despite `process_alert`
re-extracting the severity with the `"unknown"` default. -/
theorem webhook_pipeline_priority (engine : Except String EngineResult)
    (alert : GrafanaAlert) (now ts : String) :
    (alertSeverity alert = "critical" →
      (process_alert engine alert now ts).priority = "P1") ∧
    (alertSeverity alert = "high" →
      (process_alert engine alert now ts).priority = "P2") := by
  constructor
  · intro hc
    rw [process_alert_priority, severity_redefault_agree alert "critical" (by decide) hc]
    decide
  · intro hh
    rw [process_alert_priority, severity_redefault_agree alert "high" (by decide) hh]
    decide

/-- C10 witness: the pipeline theorem applied to a concrete alert whose
severity label is `CRITICAL`. -/
theorem webhook_pipeline_priority_witness :
    (process_alert (.error "engine down")
      { status := "firing"
        labels := [("severity", "CRITICAL")]
        annotations := []
        startsAt := "t"
        fingerprint := "f" } "now0" "20240101000000").priority = "P1" :=
  (webhook_pipeline_priority (.error "engine down")
    { status := "firing"
      labels := [("severity", "CRITICAL")]
      annotations := []
      startsAt := "t"
      fingerprint := "f" } "now0" "20240101000000").1 (by decide)

/-- C2: (1) if an `invoke_tool` call returns a tool result `v`, then a
second call with the same tool name and a reordered (duplicate-free)
argument mapping returns the cached `v` from the resulting state without
performing any remote call and without touching the connection, leaving
the state unchanged; (2) if the remote call fails, `invoke_tool` raises
the invocation error carrying the tool name and caches nothing. -/
theorem invoke_tool_caching :
    (∀ (Val : Type) (oracle : Nat → AttemptResult)
        (remote : String → List (String × String) → RemoteOutcome Val)
        (st : MCPState Val) (name : String)
        (args₁ args₂ : List (String × String)) (v : Val),
        List.Perm args₁ args₂ →
        (args₁.map Prod.fst).Nodup →
        (invoke_tool oracle remote st name args₁).result = .ok (.result v) →
        invoke_tool oracle remote (invoke_tool oracle remote st name args₁).state name args₂ =
          ⟨.ok (.result v), (invoke_tool oracle remote st name args₁).state, 0, false⟩) ∧
    (∀ (Val : Type) (oracle : Nat → AttemptResult)
        (remote : String → List (String × String) → RemoteOutcome Val)
        (st : MCPState Val) (name : String) (args : List (String × String)) (e : String),
        cacheGet st.cache name args = none →
        st.conn.sessionOpen = true →
        remote name args = .failure e →
        invoke_tool oracle remote st name args =
          ⟨.error ("Failed to invoke tool '" ++ name ++ "': " ++ e),
           ⟨st.conn, st.cache⟩, 1, true⟩) := by
  constructor
  · intro Val oracle remote st name a1 a2 v hperm hnd hfirst
    have hcan : canonArgs a2 = canonArgs a1 := (canonArgs_eq_of_perm hperm hnd).symm
    have hget : cacheGet st.cache name a2 = cacheGet st.cache name a1 := by
      unfold cacheGet
      rw [hcan]
    cases hc : cacheGet st.cache name a1 with
    | some w =>
      have he1 : invoke_tool oracle remote st name a1 = ⟨.ok (.result w), st, 0, false⟩ := by
        simp [invoke_tool, hc]
      rw [he1] at hfirst
      simp at hfirst
      subst hfirst
      rw [he1]
      have hg2 : cacheGet st.cache name a2 = some w := by rw [hget, hc]
      simp [invoke_tool, hg2]
    | none =>
      rcases hco : (ensure_connected oracle st.conn).result with msg | u
      · have he1 : invoke_tool oracle remote st name a1 =
            ⟨.error ("Failed to invoke tool '" ++ name ++ "': " ++ msg),
             ⟨(ensure_connected oracle st.conn).state, st.cache⟩, 0, true⟩ := by
          simp [invoke_tool, hc, hco]
        rw [he1] at hfirst
        simp at hfirst
      · by_cases hso : (ensure_connected oracle st.conn).state.sessionOpen = true
        · rcases hr : remote name a1 with w | _ | msg
          · have he1 : invoke_tool oracle remote st name a1 =
                ⟨.ok (.result w),
                 ⟨(ensure_connected oracle st.conn).state, cacheSet st.cache name a1 w⟩,
                 1, true⟩ := by
              simp [invoke_tool, hc, hco, hso, hr]
            rw [he1] at hfirst
            simp at hfirst
            subst hfirst
            rw [he1]
            have hg3 : cacheGet (cacheSet st.cache name a1 w) name a2 = some w := by
              unfold cacheGet cacheSet
              rw [hcan]
              rw [List.find?_cons_of_pos _ (by simp)]
              rfl
            simp [invoke_tool, hg3]
          · have he1 : invoke_tool oracle remote st name a1 =
                ⟨.ok (.errorDict ("No response from tool " ++ name)),
                 ⟨(ensure_connected oracle st.conn).state, st.cache⟩, 1, true⟩ := by
              simp [invoke_tool, hc, hco, hso, hr]
            rw [he1] at hfirst
            simp at hfirst
          · have he1 : invoke_tool oracle remote st name a1 =
                ⟨.error ("Failed to invoke tool '" ++ name ++ "': " ++ msg),
                 ⟨(ensure_connected oracle st.conn).state, st.cache⟩, 1, true⟩ := by
              simp [invoke_tool, hc, hco, hso, hr]
            rw [he1] at hfirst
            simp at hfirst
        · have he1 : invoke_tool oracle remote st name a1 =
              ⟨.error ("Failed to invoke tool '" ++ name ++
                 "': 'NoneType' object has no attribute 'call_tool'"),
               ⟨(ensure_connected oracle st.conn).state, st.cache⟩, 0, true⟩ := by
            simp [invoke_tool, hc, hco, hso]
          rw [he1] at hfirst
          simp at hfirst
  · intro Val oracle remote st name args e hmiss hsess hrem
    simp [invoke_tool, hmiss, ensure_connected, hsess, hrem]

/-- C2 witness: a concrete second call with reordered arguments hits the
cache filled by the first call. -/
theorem invoke_tool_caching_witness :
    invoke_tool (fun _ => AttemptResult.success)
        (fun _ _ => RemoteOutcome.content (7 : Nat))
        (invoke_tool (fun _ => AttemptResult.success) (fun _ _ => RemoteOutcome.content 7)
          ⟨⟨false, false, 0⟩, []⟩ "prometheus_query" [("a", "1"), ("b", "2")]).state
        "prometheus_query" [("b", "2"), ("a", "1")] =
      ⟨.ok (.result 7),
       (invoke_tool (fun _ => AttemptResult.success) (fun _ _ => RemoteOutcome.content 7)
          ⟨⟨false, false, 0⟩, []⟩ "prometheus_query" [("a", "1"), ("b", "2")]).state,
       0, false⟩ :=
  invoke_tool_caching.1 Nat (fun _ => AttemptResult.success)
    (fun _ _ => RemoteOutcome.content 7) ⟨⟨false, false, 0⟩, []⟩ "prometheus_query"
    [("a", "1"), ("b", "2")] [("b", "2"), ("a", "1")] 7 (by decide) (by decide) (by decide)
